import Mathlib

/-!
Verification of the push-notification delivery subsystem of `sadhef/bizservers`
(`src/routes/pushNotifications.js`: the Express routes and the `PushService`
class backed by the `PushSubscription` mongoose collection).

The collection is embedded as a list of records; the mongoose calls used by the
service (`find`, `countDocuments`, `deleteMany`, `create`, `findByIdAndDelete`)
are embedded as list operations over that state.  `webpush.sendNotification` is
an oracle `deliver : PushSubscription → SendResult` (the service only inspects
`error.statusCode` of a rejected call).  A second oracle
`delFails : Nat → Bool` says whether `PushSubscription.findByIdAndDelete`
throws for a given `_id`, which is needed to study the pruning path inside the
per-subscription `catch` block.
-/

namespace BizServers

structure Keys where
  p256dh : String
  auth : String
  deriving Repr, DecidableEq

structure PushSubscription where
  id : Nat
  userId : String
  endpoint : String
  keys : Keys
  isActive : Bool
  deriving Repr, DecidableEq

abbrev Store := List PushSubscription

/-- Mongoose `deleteMany(filter)`: removes every matching document and reports
`deletedCount`. -/
def deleteMany (p : PushSubscription → Bool) (store : Store) : Nat × Store :=
  (store.countP p, store.filter (fun s => !(p s)))

/-- Mongoose `findByIdAndDelete(id)`: removes the document with that `_id`. -/
def findByIdAndDelete (i : Nat) (store : Store) : Store :=
  store.filter (fun s => s.id != i)

/-- The query `{ userId, endpoint }` used by `PushService.subscribe`. -/
def matchesUserEndpoint (u e : String) (s : PushSubscription) : Bool :=
  s.userId == u && s.endpoint == e

/-- The query `{ userId, isActive: true }` of `PushService.sendToUser` /
`isUserSubscribed`. -/
def findActiveForUser (u : String) (store : Store) : List PushSubscription :=
  store.filter (fun s => s.userId == u && s.isActive)

/-- The query `{ isActive: true }` of `PushService.sendToAllUsers`
(the `populate` of `userId` only decorates log output and is dropped). -/
def findAllActive (store : Store) : List PushSubscription :=
  store.filter (fun s => s.isActive)

/-- `countDocuments({ userId, isActive: true })` of `isUserSubscribed`. -/
def countActiveForUser (u : String) (store : Store) : Nat :=
  store.countP (fun s => s.userId == u && s.isActive)

/-- Modelled from the spec: the `PushSubscription` schema file
(`models/PushSubscription.js`) is not among the sources, only its callers.
Per spec section 3 a subscription is created on registration and `isActive` is
set false only when an endpoint is later learned to be permanently invalid, so
`PushSubscription.create` yields an active record carrying the given keys. -/
def createSubscription (newId : Nat) (u e : String) (k : Keys) : PushSubscription :=
  { id := newId, userId := u, endpoint := e, keys := k, isActive := true }

/-- `PushService.subscribe(userId, subscription)`: `deleteMany` on
`{userId, endpoint}` then `create`.  `newId` is the `_id` mongoose assigns. -/
def subscribe (newId : Nat) (u e : String) (k : Keys) (store : Store) :
    PushSubscription × Store :=
  let store1 := (deleteMany (matchesUserEndpoint u e) store).2
  let sub := createSubscription newId u e k
  (sub, store1 ++ [sub])

/-- `PushService.unsubscribe(userId)`: `deleteMany({ userId })`, returning
`result.deletedCount`. -/
def unsubscribe (u : String) (store : Store) : Nat × Store :=
  deleteMany (fun s => s.userId == u) store

/-- Outcome of one `webpush.sendNotification` call: fulfilled, or rejected with
an error whose `statusCode` may be absent (network failure). -/
inductive SendResult where
  | delivered
  | failed (statusCode : Option Nat)
  deriving Repr, DecidableEq

/-- The service's pruning test `error.statusCode === 410 || error.statusCode === 404`. -/
def isPermanent : SendResult → Bool
  | .delivered => false
  | .failed code => code == some 410 || code == some 404

/-- The object literal a `PushService` send method resolves with: either the
`{ success:false, message }` shape of the empty branch (no `sent`/`total`) or
the `{ success, sent, total }` shape of the counting branch. -/
structure ServiceResult where
  success : Bool
  message : Option String := none
  sent : Option Nat := none
  total : Option Nat := none
  deriving Repr, DecidableEq

/-- A send method either resolves with a `ServiceResult` or rejects: the outer
`catch` rethrows `new Error(msg)` to the route handler. -/
inductive DispatchResult where
  | ok (r : ServiceResult)
  | raised (msg : String)
  deriving Repr, DecidableEq

def DispatchResult.isOk : DispatchResult → Bool
  | .ok _ => true
  | .raised _ => false

/-- `r.sent` of the resolved result, or `none` when the dispatch rejected. -/
def DispatchResult.okSent : DispatchResult → Option (Option Nat)
  | .ok r => some r.sent
  | .raised _ => none

/-- State of the `for (const subscription of subscriptions)` loop when it ends:
either it ran to completion or an exception escaped a loop body (only the
`findByIdAndDelete` inside the `catch` can throw there). -/
inductive LoopOut where
  | done (store : Store) (successCount : Nat) (att : List Nat)
  | aborted (store : Store) (att : List Nat)
  deriving Repr, DecidableEq

def LoopOut.att : LoopOut → List Nat
  | .done _ _ a => a
  | .aborted _ a => a

/-- The shared delivery loop of `sendToUser` / `sendToAllUsers`.  Each
iteration awaits `webpush.sendNotification`; on fulfilment `successCount++`;
on rejection, when `statusCode` is 410 or 404 it awaits
`findByIdAndDelete(subscription._id)` — if that throws, the exception leaves
the loop (nothing was deleted); any other rejection is only logged.  `att`
records the `_id` of every subscription a delivery was attempted for. -/
def sendLoop (deliver : PushSubscription → SendResult) (delFails : Nat → Bool) :
    List PushSubscription → Store → Nat → List Nat → LoopOut
  | [], store, cnt, att => .done store cnt att
  | s :: rest, store, cnt, att =>
    match deliver s with
    | .delivered => sendLoop deliver delFails rest store (cnt + 1) (att ++ [s.id])
    | .failed code =>
      if code == some 410 || code == some 404 then
        if delFails s.id then .aborted store (att ++ [s.id])
        else sendLoop deliver delFails rest (findByIdAndDelete s.id store) cnt (att ++ [s.id])
      else sendLoop deliver delFails rest store cnt (att ++ [s.id])

/-- Result of one send method: its resolved/rejected value, the collection
state it leaves behind, and the ids delivery was attempted for. -/
structure DispatchOut where
  result : DispatchResult
  store : Store
  attempts : List Nat
  deriving Repr, DecidableEq

/-- Body shared verbatim by `sendToUser` and `sendToAllUsers` (they differ only
in the query and in the message of the rethrown error): empty target list
short-circuits to `{ success:false, message:'No subscriptions found' }`,
otherwise the loop runs and `{ success: successCount > 0, sent: successCount,
total: subscriptions.length }` is returned. -/
def dispatch (deliver : PushSubscription → SendResult) (delFails : Nat → Bool)
    (raiseMsg : String) (subs : List PushSubscription) (store : Store) : DispatchOut :=
  if subs.length == 0 then
    { result := .ok { success := false, message := some "No subscriptions found" },
      store := store, attempts := [] }
  else
    match sendLoop deliver delFails subs store 0 [] with
    | .done store1 cnt att =>
        { result := .ok { success := decide (0 < cnt), sent := some cnt,
                          total := some subs.length },
          store := store1, attempts := att }
    | .aborted store1 att =>
        { result := .raised raiseMsg, store := store1, attempts := att }

/-- `PushService.sendToUser(userId, message)`. -/
def sendToUser (deliver : PushSubscription → SendResult) (delFails : Nat → Bool)
    (u : String) (store : Store) : DispatchOut :=
  dispatch deliver delFails "Failed to send notification" (findActiveForUser u store) store

/-- `PushService.sendToAllUsers(message)`. -/
def sendToAllUsers (deliver : PushSubscription → SendResult) (delFails : Nat → Bool)
    (store : Store) : DispatchOut :=
  dispatch deliver delFails "Failed to send bulk notification" (findAllActive store) store

/-- `PushService.isUserSubscribed(userId)`: `countDocuments > 0`, with the
whole body in a `try` whose `catch` returns `false`.  `queryFails` says whether
the store query throws. -/
def isUserSubscribed (queryFails : Bool) (u : String) (store : Store) : Bool :=
  if queryFails then false else decide (0 < countActiveForUser u store)

/-- The `GET /status` route: `isUserSubscribed` cannot reject, so the handler
always answers status 200 with `{ isSubscribed }`. -/
def statusRoute (queryFails : Bool) (u : String) (store : Store) : Nat × Bool :=
  (200, isUserSubscribed queryFails u store)

/-- Concrete delivery oracle: every push endpoint accepts. -/
def deliverAllOk : PushSubscription → SendResult := fun _ => .delivered

/-- Concrete store oracle: `findByIdAndDelete` always succeeds. -/
def delNeverFails : Nat → Bool := fun _ => false

/-- Concrete key material for test fixtures. -/
def k0 : Keys := ⟨"p", "a"⟩

def activeSub1 : PushSubscription := ⟨1, "u1", "e1", k0, true⟩

def inactiveSub : PushSubscription := ⟨2, "u1", "e2", k0, false⟩

def activeSub3 : PushSubscription := ⟨3, "u1", "e3", k0, true⟩

def demoStore2 : Store := [activeSub1, activeSub3]

/-- Oracle: the endpoint of subscription 3 times out with a 500, the rest accept. -/
def deliver1fail : PushSubscription → SendResult :=
  fun s => if s.id == 3 then .failed (some 500) else .delivered

/-- Oracle: the endpoint of subscription 3 is gone (410), the rest accept. -/
def deliver410at3 : PushSubscription → SendResult :=
  fun s => if s.id == 3 then .failed (some 410) else .delivered

/-- Oracle: every endpoint is gone (410). -/
def deliver410 : PushSubscription → SendResult := fun _ => .failed (some 410)

/-- Oracle: subscription 1 accepts, every other endpoint is gone (404). -/
def deliverMix : PushSubscription → SendResult :=
  fun s => if s.id == 1 then .delivered else .failed (some 404)

def delAlwaysFails : Nat → Bool := fun _ => true

def delFailsAt3 : Nat → Bool := fun i => i == 3

/-- Net effect of the loop on the collection: each permanently-failed target's
record is deleted, in iteration order. -/
def pruneFold (deliver : PushSubscription → SendResult) (subs : List PushSubscription)
    (store : Store) : Store :=
  subs.foldl (fun st s => if isPermanent (deliver s) then findByIdAndDelete s.id st else st) store

/-- The number of fulfilled `sendNotification` calls among the targets. -/
def countDelivered (deliver : PushSubscription → SendResult)
    (subs : List PushSubscription) : Nat :=
  subs.countP (fun s => deliver s == .delivered)


/-- Whitespace stripped by the validation chain's `trim()` sanitizer. -/
def isJsSpace (c : Char) : Bool :=
  c == ' ' || c == '\t' || c == '\n' || c == '\r' || c == Char.ofNat 11 || c == Char.ofNat 12

/-- `trim()` sanitizer of the `/send-to-user` chain (strips leading and
trailing whitespace), as the character list it leaves. -/
def jsTrim (s : String) : List Char :=
  ((s.toList.dropWhile isJsSpace).reverse.dropWhile isJsSpace).reverse

def isHexChar (c : Char) : Bool :=
  c.isDigit || ('a' ≤ c && c ≤ 'f') || ('A' ≤ c && c ≤ 'F')

/-- validator.js `isMongoId`: a 24-character hexadecimal string. -/
def isMongoId (s : String) : Bool :=
  s.length == 24 && s.toList.all isHexChar

/-- The `POST /send-to-user` validation chain in declaration order (`userId`
mongo-id, trimmed `title` 1..100 chars, trimmed `message` 1..300 chars); the
route reports `errors.array()[0].msg`, the first failing check's message. -/
def validateSendToUser (userId title message : String) : Option String :=
  if isMongoId userId = false then some "Valid user ID required"
  else if ¬(1 ≤ (jsTrim title).length ∧ (jsTrim title).length ≤ 100) then
    some "Title must be 1-100 characters"
  else if ¬(1 ≤ (jsTrim message).length ∧ (jsTrim message).length ≤ 300) then
    some "Message must be 1-300 characters"
  else none

/-- How a route handler answers: `res.status(st).json(...)` carrying the
service result, or `next(new AppError(msg, st))`. -/
inductive RouteResponse where
  | json (status : Nat) (r : ServiceResult)
  | appError (status : Nat) (msg : String)
  deriving Repr, DecidableEq

def RouteResponse.statusOf : RouteResponse → Nat
  | .json st _ => st
  | .appError st _ => st

/-- The `sent` field of a 200 payload, `none` when the answer is an error. -/
def RouteResponse.sentField : RouteResponse → Option (Option Nat)
  | .json _ r => some r.sent
  | .appError _ _ => none

structure RouteOut where
  response : RouteResponse
  store : Store
  attempts : List Nat
  deriving Repr, DecidableEq

/-- The `POST /send-to-user` handler: a validation failure short-circuits to
`AppError(msg, 400)` before `PushService.sendToUser` runs; a resolved service
call is answered 200 with its result; a rejected one becomes
`AppError('Failed to send notification', 500)`. -/
def sendToUserRoute (deliver : PushSubscription → SendResult) (delFails : Nat → Bool)
    (userId title message : String) (store : Store) : RouteOut :=
  match validateSendToUser userId title message with
  | some msg => { response := .appError 400 msg, store := store, attempts := [] }
  | none =>
    let out := sendToUser deliver delFails userId store
    match out.result with
    | .ok r => { response := .json 200 r, store := out.store, attempts := out.attempts }
    | .raised _ =>
      { response := .appError 500 "Failed to send notification",
        store := out.store, attempts := out.attempts }

/-- A well-formed mongo object id. -/
def mongoId1 : String := "0123456789abcdef01234567"

lemma filter_not_filter (p : PushSubscription → Bool) (l : Store) :
    (l.filter (fun s => !(p s))).filter p = [] := by
  induction l with
  | nil => rfl
  | cons s t ih => by_cases h : p s <;> simp [List.filter_cons, h, ih]

lemma sendLoop_append (deliver : PushSubscription → SendResult) (delFails : Nat → Bool) :
    ∀ (pre rest : List PushSubscription) (store : Store) (cnt : Nat) (att : List Nat),
    (∀ t ∈ pre, isPermanent (deliver t) = true → delFails t.id = false) →
    sendLoop deliver delFails (pre ++ rest) store cnt att =
      sendLoop deliver delFails rest (pruneFold deliver pre store)
        (cnt + countDelivered deliver pre) (att ++ pre.map (fun s => s.id)) := by
  intro pre
  induction pre with
  | nil =>
    intro rest store cnt att _
    simp [pruneFold, countDelivered]
  | cons s p ih =>
    intro rest store cnt att h
    have hs := h s (by simp)
    have hp : ∀ t ∈ p, isPermanent (deliver t) = true → delFails t.id = false :=
      fun t ht => h t (by simp [ht])
    have h3 : att ++ List.map (fun t => t.id) (s :: p) =
        (att ++ [s.id]) ++ List.map (fun t => t.id) p := by simp
    rcases hds : deliver s with _ | code
    · have h1 : pruneFold deliver (s :: p) store = pruneFold deliver p store := by
        simp [pruneFold, isPermanent, hds]
      have h2 : cnt + countDelivered deliver (s :: p) = cnt + 1 + countDelivered deliver p := by
        simp only [countDelivered, List.countP_cons, hds, beq_self_eq_true, if_true]
        omega
      simp only [List.cons_append, sendLoop, hds, List.append_eq]
      rw [ih rest store (cnt + 1) (att ++ [s.id]) hp, h1, h2, h3]
    · have h2 : cnt + countDelivered deliver (s :: p) = cnt + countDelivered deliver p := by
        simp [countDelivered, List.countP_cons, hds]
      by_cases hc : (code == some 410 || code == some 404) = true
      · have hdf : delFails s.id = false := hs (by simp [isPermanent, hds, hc])
        have h1 : pruneFold deliver (s :: p) store =
            pruneFold deliver p (findByIdAndDelete s.id store) := by
          simp [pruneFold, isPermanent, hds, hc]
        simp only [List.cons_append, sendLoop, hds, hc, hdf, if_true, if_false,
          Bool.false_eq_true, List.append_eq]
        rw [ih rest (findByIdAndDelete s.id store) cnt (att ++ [s.id]) hp, h1, h2, h3]
      · have h1 : pruneFold deliver (s :: p) store = pruneFold deliver p store := by
          simp [pruneFold, isPermanent, hds, hc]
        simp only [List.cons_append, sendLoop, hds, hc, Bool.false_eq_true, if_false,
          List.append_eq]
        rw [ih rest store cnt (att ++ [s.id]) hp, h1, h2, h3]

lemma sendLoop_no_delete_failure (deliver : PushSubscription → SendResult)
    (delFails : Nat → Bool) (hdf : ∀ i, delFails i = false)
    (subs : List PushSubscription) (store : Store) (cnt : Nat) (att : List Nat) :
    sendLoop deliver delFails subs store cnt att =
      .done (pruneFold deliver subs store) (cnt + countDelivered deliver subs)
        (att ++ subs.map (fun s => s.id)) := by
  have h := sendLoop_append deliver delFails subs [] store cnt att
    (fun t _ _ => hdf t.id)
  simpa [sendLoop] using h

lemma dispatch_no_delete_failure (deliver : PushSubscription → SendResult)
    (delFails : Nat → Bool) (raiseMsg : String) (subs : List PushSubscription)
    (store : Store) (hdf : ∀ i, delFails i = false) (hne : subs ≠ []) :
    dispatch deliver delFails raiseMsg subs store =
      { result := .ok { success := decide (0 < countDelivered deliver subs),
                        sent := some (countDelivered deliver subs),
                        total := some subs.length },
        store := pruneFold deliver subs store,
        attempts := subs.map (fun s => s.id) } := by
  unfold dispatch
  have hlen : (subs.length == 0) = false := by
    simp [List.length_eq_zero, hne]
  rw [hlen, sendLoop_no_delete_failure deliver delFails hdf subs store 0 []]
  simp

lemma mem_pruneFold (deliver : PushSubscription → SendResult) :
    ∀ (subs : List PushSubscription) (store : Store) (t : PushSubscription),
    t ∈ pruneFold deliver subs store ↔
      (t ∈ store ∧ ∀ s ∈ subs, isPermanent (deliver s) = true → t.id ≠ s.id) := by
  intro subs
  induction subs with
  | nil => intro store t; simp [pruneFold]
  | cons s rest ih =>
    intro store t
    have h1 : pruneFold deliver (s :: rest) store =
        pruneFold deliver rest
          (if isPermanent (deliver s) then findByIdAndDelete s.id store else store) := rfl
    rw [h1, ih]
    by_cases hp : isPermanent (deliver s) = true
    · simp only [hp, if_true, findByIdAndDelete, List.mem_filter, bne_iff_ne,
        List.forall_mem_cons, ne_eq]
      tauto
    · simp only [hp, Bool.false_eq_true, if_false, List.forall_mem_cons]
      tauto

lemma eq_of_mem_of_id_eq {store : Store}
    (hnd : (store.map (fun s => s.id)).Nodup)
    {a b : PushSubscription} (ha : a ∈ store) (hb : b ∈ store)
    (hid : a.id = b.id) : a = b :=
  List.inj_on_of_nodup_map hnd ha hb hid

lemma prune_target_mem (deliver : PushSubscription → SendResult)
    (subs : List PushSubscription) (store : Store) (s : PushSubscription)
    (hnd : (store.map (fun t => t.id)).Nodup)
    (hsub : ∀ t ∈ subs, t ∈ store) (hs : s ∈ subs) :
    (s ∈ pruneFold deliver subs store ↔ isPermanent (deliver s) = false) := by
  rw [mem_pruneFold]
  constructor
  · rintro ⟨_, hall⟩
    rcases hb : isPermanent (deliver s) with _ | _
    · rfl
    · exact absurd rfl (hall s hs hb)
  · intro hnp
    refine ⟨hsub s hs, ?_⟩
    intro t ht hpt hid
    have : s = t := eq_of_mem_of_id_eq hnd (hsub s hs) (hsub t ht) hid
    rw [this, hpt] at hnp
    exact Bool.true_eq_false.mp hnp

lemma dispatch_attempts (deliver : PushSubscription → SendResult) (delFails : Nat → Bool)
    (raiseMsg : String) (subs : List PushSubscription) (store : Store) :
    (dispatch deliver delFails raiseMsg subs store).attempts =
      if subs.length == 0 then [] else (sendLoop deliver delFails subs store 0 []).att := by
  unfold dispatch
  by_cases h : (subs.length == 0) = true
  · simp [h]
  · rw [if_neg h, if_neg h]
    rcases hE : sendLoop deliver delFails subs store 0 [] with _ | _ <;> simp [LoopOut.att]

lemma sendLoop_att_subset (deliver : PushSubscription → SendResult) (delFails : Nat → Bool) :
    ∀ (subs : List PushSubscription) (store : Store) (cnt : Nat) (att : List Nat) (j : Nat),
    j ∈ (sendLoop deliver delFails subs store cnt att).att →
      j ∈ att ∨ j ∈ subs.map (fun s => s.id) := by
  intro subs
  induction subs with
  | nil =>
    intro store cnt att j h
    exact Or.inl (by simpa [sendLoop, LoopOut.att] using h)
  | cons s rest ih =>
    intro store cnt att j h
    have hstep : ∀ st1 c1, j ∈ (sendLoop deliver delFails rest st1 c1 (att ++ [s.id])).att →
        j ∈ att ∨ j ∈ (s :: rest).map (fun t => t.id) := by
      intro st1 c1 hj
      rcases ih st1 c1 (att ++ [s.id]) j hj with h1 | h1
      · rcases List.mem_append.1 h1 with h2 | h2
        · exact Or.inl h2
        · exact Or.inr (by simp [List.mem_singleton.1 h2])
      · exact Or.inr (by simp [h1])
    rcases hds : deliver s with _ | code
    · simp only [sendLoop, hds] at h
      exact hstep store (cnt + 1) h
    · simp only [sendLoop, hds] at h
      by_cases hc : (code == some 410 || code == some 404) = true
      · rw [if_pos hc] at h
        by_cases hd : delFails s.id = true
        · rw [if_pos hd] at h
          have h1 : j ∈ att ++ [s.id] := h
          rcases List.mem_append.1 h1 with h2 | h2
          · exact Or.inl h2
          · exact Or.inr (by simp [List.mem_singleton.1 h2])
        · rw [if_neg hd] at h
          exact hstep (findByIdAndDelete s.id store) cnt h
      · rw [if_neg hc] at h
        exact hstep store cnt h

/-- C1, counterexample: `sendToUser` on a subscriber with no subscriptions
resolves normally, but the resolved object is `{ success:false,
message:'No subscriptions found' }`: its `sent` field is absent (`none`),
not `0` as the claim states. -/
theorem C1_counterexample :
    DispatchResult.okSent (sendToUser deliverAllOk delNeverFails "u1" []).result
      = some none ∧
    DispatchResult.okSent (sendToUser deliverAllOk delNeverFails "u1" []).result
      ≠ some (some 0) := by
  constructor
  · rfl
  · intro h
    rw [show DispatchResult.okSent (sendToUser deliverAllOk delNeverFails "u1" []).result
          = some none from rfl] at h
    simp at h

/-- C1 (amended): a dispatch whose resolved target set is empty resolves
immediately with `{ success:false, message:'No subscriptions found' }` (no
`sent`/`total` fields), performs no delivery attempt, leaves the store
untouched, and does not reject. -/
theorem C1_empty_dispatch (deliver : PushSubscription → SendResult)
    (delFails : Nat → Bool) (u : String) (store : Store) :
    (findActiveForUser u store = [] →
      sendToUser deliver delFails u store =
        { result := .ok { success := false, message := some "No subscriptions found" },
          store := store, attempts := [] }) ∧
    (findAllActive store = [] →
      sendToAllUsers deliver delFails store =
        { result := .ok { success := false, message := some "No subscriptions found" },
          store := store, attempts := [] }) := by
  constructor <;> intro h <;> simp [sendToUser, sendToAllUsers, dispatch, h]

theorem C1_empty_dispatch_witness :
    sendToUser deliverAllOk delNeverFails "u9" [inactiveSub] =
      { result := .ok { success := false, message := some "No subscriptions found" },
        store := [inactiveSub], attempts := [] } ∧
    sendToAllUsers deliverAllOk delNeverFails [inactiveSub] =
      { result := .ok { success := false, message := some "No subscriptions found" },
        store := [inactiveSub], attempts := [] } :=
  ⟨(C1_empty_dispatch deliverAllOk delNeverFails "u9" [inactiveSub]).1 rfl,
   (C1_empty_dispatch deliverAllOk delNeverFails "u9" [inactiveSub]).2 rfl⟩

/-- C4: after `subscribe(userId, {endpoint, keys})`, the store holds exactly
one record matching `(userId, endpoint)` — the freshly created one, which is
active and carries the keys of this (most recent) registration.  This holds
for every prior store state, so re-registering never duplicates the pair. -/
theorem C4_register_supersedes (newId : Nat) (u e : String) (k : Keys) (store : Store) :
    (subscribe newId u e k store).2.filter (matchesUserEndpoint u e) =
      [createSubscription newId u e k] ∧
    (createSubscription newId u e k).keys = k ∧
    (createSubscription newId u e k).isActive = true := by
  refine ⟨?_, rfl, rfl⟩
  have h1 : (subscribe newId u e k store).2 =
      store.filter (fun s => !(matchesUserEndpoint u e s)) ++ [createSubscription newId u e k] := rfl
  rw [h1, List.filter_append, filter_not_filter]
  simp [matchesUserEndpoint, createSubscription]

/-- C7: `unsubscribe` returns the number of this subscriber's records it
removed (0 when none exist, with no failure path on the empty case), and a
second call right after always returns 0. -/
theorem C7_unsubscribe_idempotent (u : String) (store : Store) :
    (unsubscribe u store).1 = store.countP (fun s => s.userId == u) ∧
    (unsubscribe u (unsubscribe u store).2).1 = 0 := by
  refine ⟨rfl, ?_⟩
  show ((store.filter (fun s => !(s.userId == u))).countP (fun s => s.userId == u)) = 0
  rw [List.countP_eq_zero]
  intro a ha
  rw [List.mem_filter] at ha
  simpa using ha.2

/-- C10: `isUserSubscribed` is true exactly when the subscriber's active
subscription count is positive; when the store query throws it returns
`false` instead of rejecting, and the status route always answers 200 with
that boolean. -/
theorem C10_subscription_status (queryFails : Bool) (u : String) (store : Store) :
    (queryFails = false →
      (isUserSubscribed queryFails u store = true ↔ 0 < countActiveForUser u store)) ∧
    (queryFails = true → isUserSubscribed queryFails u store = false) ∧
    (statusRoute queryFails u store).1 = 200 ∧
    (statusRoute queryFails u store).2 = isUserSubscribed queryFails u store := by
  refine ⟨?_, ?_, rfl, rfl⟩ <;> intro h <;> simp [isUserSubscribed, h]

lemma countDelivered_add_failed (deliver : PushSubscription → SendResult)
    (subs : List PushSubscription) :
    countDelivered deliver subs +
      subs.countP (fun s => !(deliver s == SendResult.delivered)) = subs.length := by
  induction subs with
  | nil => rfl
  | cons s rest ih =>
    by_cases hds : (deliver s == SendResult.delivered) = true <;>
      simp [countDelivered, List.countP_cons, hds] at ih ⊢ <;> omega

lemma dispatch_aborts (deliver : PushSubscription → SendResult) (delFails : Nat → Bool)
    (raiseMsg : String) (pre : List PushSubscription) (s : PushSubscription)
    (post : List PushSubscription) (store : Store)
    (hpre : ∀ t ∈ pre, isPermanent (deliver t) = true → delFails t.id = false)
    (hperm : isPermanent (deliver s) = true)
    (hdel : delFails s.id = true) :
    dispatch deliver delFails raiseMsg (pre ++ s :: post) store =
      { result := .raised raiseMsg,
        store := pruneFold deliver pre store,
        attempts := pre.map (fun t => t.id) ++ [s.id] } := by
  unfold dispatch
  have hlen : ((pre ++ s :: post).length == 0) = false := by simp
  rw [hlen, if_neg (by simp), sendLoop_append deliver delFails pre (s :: post) store 0 [] hpre]
  rcases hds : deliver s with _ | code
  · rw [hds] at hperm
    simp [isPermanent] at hperm
  · have hc : (code == some 410 || code == some 404) = true := by
      rw [hds] at hperm
      simpa [isPermanent] using hperm
    simp only [sendLoop, hds, hc, hdel, if_true]
    simp

/-- C2: over a non-empty target set of `N` subscriptions in which `K` delivery
attempts reject (any mix of transient and permanent rejections, with the
pruning deletes themselves succeeding), both send methods resolve with
`total = N`, `sent = N - K`, and `success = (sent > 0)`. -/
theorem C2_aggregate_counts (deliver : PushSubscription → SendResult)
    (delFails : Nat → Bool) (u : String) (store : Store)
    (hdf : ∀ i, delFails i = false) :
    (findActiveForUser u store ≠ [] →
      (sendToUser deliver delFails u store).result =
        .ok { success := decide (0 < (findActiveForUser u store).length -
                (findActiveForUser u store).countP (fun s => !(deliver s == SendResult.delivered))),
              sent := some ((findActiveForUser u store).length -
                (findActiveForUser u store).countP (fun s => !(deliver s == SendResult.delivered))),
              total := some (findActiveForUser u store).length }) ∧
    (findAllActive store ≠ [] →
      (sendToAllUsers deliver delFails store).result =
        .ok { success := decide (0 < (findAllActive store).length -
                (findAllActive store).countP (fun s => !(deliver s == SendResult.delivered))),
              sent := some ((findAllActive store).length -
                (findAllActive store).countP (fun s => !(deliver s == SendResult.delivered))),
              total := some (findAllActive store).length }) := by
  constructor
  · intro hne
    have hcd := countDelivered_add_failed deliver (findActiveForUser u store)
    rw [sendToUser, dispatch_no_delete_failure deliver delFails _ _ _ hdf hne]
    have hsub : countDelivered deliver (findActiveForUser u store) =
        (findActiveForUser u store).length -
          (findActiveForUser u store).countP (fun s => !(deliver s == SendResult.delivered)) := by
      omega
    rw [hsub]
  · intro hne
    have hcd := countDelivered_add_failed deliver (findAllActive store)
    rw [sendToAllUsers, dispatch_no_delete_failure deliver delFails _ _ _ hdf hne]
    have hsub : countDelivered deliver (findAllActive store) =
        (findAllActive store).length -
          (findAllActive store).countP (fun s => !(deliver s == SendResult.delivered)) := by
      omega
    rw [hsub]

theorem C2_aggregate_counts_witness :
    (sendToUser deliver1fail delNeverFails "u1" demoStore2).result =
      .ok { success := true, sent := some 1, total := some 2 } := by
  have h := (C2_aggregate_counts deliver1fail delNeverFails "u1" demoStore2
    (fun _ => rfl)).1 (by decide)
  rw [h]
  decide

/-- C3: a target subscription is excluded from all subsequent active-listing
results exactly when its delivery rejected with statusCode 404 or 410
(assuming the pruning deletes succeed and store ids are distinct); any other
rejection (timeout, 5xx, network error without statusCode) leaves its record
in place. -/
theorem C3_prune_iff (deliver : PushSubscription → SendResult) (delFails : Nat → Bool)
    (u : String) (store : Store) (s : PushSubscription)
    (hdf : ∀ i, delFails i = false)
    (hnd : (store.map (fun t => t.id)).Nodup) :
    (s ∈ findActiveForUser u store →
      (s ∈ findActiveForUser u (sendToUser deliver delFails u store).store ↔
        isPermanent (deliver s) = false)) ∧
    (s ∈ findAllActive store →
      (s ∈ findAllActive (sendToAllUsers deliver delFails store).store ↔
        isPermanent (deliver s) = false)) := by
  constructor
  · intro hs
    have hne : findActiveForUser u store ≠ [] := List.ne_nil_of_mem hs
    rw [sendToUser, dispatch_no_delete_failure deliver delFails _ _ _ hdf hne]
    have hsubset : ∀ t ∈ findActiveForUser u store, t ∈ store := by
      intro t ht
      exact List.mem_of_mem_filter ht
    have hs2 : s ∈ store.filter (fun t => t.userId == u && t.isActive) := hs
    have hpred := List.of_mem_filter hs2
    have hkey := prune_target_mem deliver (findActiveForUser u store) store s hnd hsubset hs
    constructor
    · intro hmem
      exact hkey.1 (List.mem_of_mem_filter hmem)
    · intro hnp
      exact List.mem_filter.2 ⟨hkey.2 hnp, hpred⟩
  · intro hs
    have hne : findAllActive store ≠ [] := List.ne_nil_of_mem hs
    rw [sendToAllUsers, dispatch_no_delete_failure deliver delFails _ _ _ hdf hne]
    have hsubset : ∀ t ∈ findAllActive store, t ∈ store := by
      intro t ht
      exact List.mem_of_mem_filter ht
    have hs2 : s ∈ store.filter (fun t => t.isActive) := hs
    have hpred := List.of_mem_filter hs2
    have hkey := prune_target_mem deliver (findAllActive store) store s hnd hsubset hs
    constructor
    · intro hmem
      exact hkey.1 (List.mem_of_mem_filter hmem)
    · intro hnp
      exact List.mem_filter.2 ⟨hkey.2 hnp, hpred⟩

theorem C3_prune_iff_witness :
    activeSub3 ∉ findActiveForUser "u1"
      (sendToUser deliver410at3 delNeverFails "u1" demoStore2).store := by
  intro hmem
  have h := ((C3_prune_iff deliver410at3 delNeverFails "u1" demoStore2 activeSub3
      (fun _ => rfl) (by decide)).1 (by decide)).1 hmem
  exact absurd h (by decide)

/-- C5: with the pruning deletes succeeding, every subscription of the
resolved target set receives exactly one delivery attempt, in order, whatever
mix of outcomes the endpoints produce — each attempt's outcome is a function
of that subscription alone — and both send methods resolve (never reject). -/
theorem C5_attempt_isolation (deliver : PushSubscription → SendResult)
    (delFails : Nat → Bool) (u : String) (store : Store)
    (hdf : ∀ i, delFails i = false) :
    ((sendToUser deliver delFails u store).attempts =
        (findActiveForUser u store).map (fun s => s.id) ∧
      DispatchResult.isOk (sendToUser deliver delFails u store).result = true) ∧
    ((sendToAllUsers deliver delFails store).attempts =
        (findAllActive store).map (fun s => s.id) ∧
      DispatchResult.isOk (sendToAllUsers deliver delFails store).result = true) := by
  constructor
  · by_cases hne : findActiveForUser u store = []
    · rw [sendToUser]
      constructor <;> simp [dispatch, hne, DispatchResult.isOk]
    · rw [sendToUser, dispatch_no_delete_failure deliver delFails _ _ _ hdf hne]
      exact ⟨rfl, rfl⟩
  · by_cases hne : findAllActive store = []
    · rw [sendToAllUsers]
      constructor <;> simp [dispatch, hne, DispatchResult.isOk]
    · rw [sendToAllUsers, dispatch_no_delete_failure deliver delFails _ _ _ hdf hne]
      exact ⟨rfl, rfl⟩

theorem C5_attempt_isolation_witness :
    (sendToUser deliver1fail delNeverFails "u1" demoStore2).attempts =
      (findActiveForUser "u1" demoStore2).map (fun s => s.id) ∧
    DispatchResult.isOk (sendToUser deliver1fail delNeverFails "u1" demoStore2).result = true :=
  (C5_attempt_isolation deliver1fail delNeverFails "u1" demoStore2 (fun _ => rfl)).1

/-- C6, counterexample: one active subscription whose delivery rejects with
410 and whose pruning delete throws — the dispatch rejects with
`Error('Failed to send notification')`, so the pruning failure IS propagated
to the caller, contradicting the claim that it is caught and logged only. -/
theorem C6_counterexample :
    (sendToUser deliver410 delAlwaysFails "u1" [activeSub1]).result =
      .raised "Failed to send notification" ∧
    DispatchResult.isOk (sendToUser deliver410 delAlwaysFails "u1" [activeSub1]).result
      = false :=
  ⟨rfl, rfl⟩

/-- C6 (amended): when the `findByIdAndDelete` pruning a permanently-failed
subscription throws, the exception escapes the per-subscription `catch`: the
loop stops (subscriptions after that one get no delivery attempt) and the
outer handler rethrows `Error('Failed to send notification')` to the caller,
so no `sent`/`total` counts are returned. -/
theorem C6_prune_failure_propagates (deliver : PushSubscription → SendResult)
    (delFails : Nat → Bool) (u : String) (store : Store)
    (pre : List PushSubscription) (s : PushSubscription) (post : List PushSubscription)
    (hsplit : findActiveForUser u store = pre ++ s :: post)
    (hpre : ∀ t ∈ pre, isPermanent (deliver t) = true → delFails t.id = false)
    (hperm : isPermanent (deliver s) = true)
    (hdel : delFails s.id = true) :
    (sendToUser deliver delFails u store).result = .raised "Failed to send notification" ∧
    (sendToUser deliver delFails u store).attempts = pre.map (fun t => t.id) ++ [s.id] := by
  rw [sendToUser, hsplit, dispatch_aborts deliver delFails _ pre s post store hpre hperm hdel]
  exact ⟨rfl, rfl⟩

theorem C6_prune_failure_propagates_witness :
    (sendToUser deliverMix delFailsAt3 "u1" demoStore2).result =
      .raised "Failed to send notification" ∧
    (sendToUser deliverMix delFailsAt3 "u1" demoStore2).attempts =
      [activeSub1].map (fun t => t.id) ++ [activeSub3.id] :=
  C6_prune_failure_propagates deliverMix delFailsAt3 "u1" demoStore2 [activeSub1]
    activeSub3 [] (by decide) (by decide) (by decide) (by decide)

/-- C8: only records that are in the store, active, and (for the single-user
dispatch) owned by the requested subscriber ever receive a delivery attempt;
an `isActive = false` record is never attempted, whatever the delivery and
store-failure oracles do. -/
theorem C8_only_active_targets (deliver : PushSubscription → SendResult)
    (delFails : Nat → Bool) (u : String) (store : Store) (j : Nat) :
    (j ∈ (sendToUser deliver delFails u store).attempts →
      ∃ s, s ∈ store ∧ s.id = j ∧ s.isActive = true ∧ s.userId = u) ∧
    (j ∈ (sendToAllUsers deliver delFails store).attempts →
      ∃ s, s ∈ store ∧ s.id = j ∧ s.isActive = true) := by
  constructor
  · intro h
    rw [sendToUser, dispatch_attempts] at h
    by_cases hne : ((findActiveForUser u store).length == 0) = true
    · rw [if_pos hne] at h
      simp at h
    · rw [if_neg hne] at h
      rcases sendLoop_att_subset deliver delFails (findActiveForUser u store) store 0 [] j h
        with h1 | h1
      · simp at h1
      · rcases List.mem_map.1 h1 with ⟨s, hs, hid⟩
        have hmem : s ∈ store := List.mem_of_mem_filter hs
        have hpred := List.of_mem_filter hs
        simp only [Bool.and_eq_true, beq_iff_eq] at hpred
        exact ⟨s, hmem, hid, hpred.2, hpred.1⟩
  · intro h
    rw [sendToAllUsers, dispatch_attempts] at h
    by_cases hne : ((findAllActive store).length == 0) = true
    · rw [if_pos hne] at h
      simp at h
    · rw [if_neg hne] at h
      rcases sendLoop_att_subset deliver delFails (findAllActive store) store 0 [] j h
        with h1 | h1
      · simp at h1
      · rcases List.mem_map.1 h1 with ⟨s, hs, hid⟩
        have hmem : s ∈ store := List.mem_of_mem_filter hs
        have hpred := List.of_mem_filter hs
        exact ⟨s, hmem, hid, hpred⟩

theorem C8_only_active_targets_witness :
    ∃ s, s ∈ [activeSub1] ∧ s.id = 1 ∧ s.isActive = true ∧ s.userId = "u1" :=
  (C8_only_active_targets deliverAllOk delNeverFails "u1" [activeSub1] 1).1 (by decide)

theorem C10_subscription_status_witness :
    (isUserSubscribed false "u1" [activeSub1] = true ↔
      0 < countActiveForUser "u1" [activeSub1]) ∧
    isUserSubscribed true "u1" [activeSub1] = false :=
  ⟨(C10_subscription_status false "u1" [activeSub1]).1 rfl,
   (C10_subscription_status true "u1" [activeSub1]).2.1 rfl⟩

/-- C9, counterexample: a well-formed request (valid mongo id, title and
message in range) for a user with no subscriptions is answered 200 — but the
200 payload is `{ success:false, message:'No subscriptions found' }`: its
`sent` field is absent (`none`), not `0` as the claim states. -/
theorem C9_counterexample :
    RouteResponse.statusOf
      (sendToUserRoute deliverAllOk delNeverFails mongoId1 "Hi" "Hello" []).response = 200 ∧
    RouteResponse.sentField
      (sendToUserRoute deliverAllOk delNeverFails mongoId1 "Hi" "Hello" []).response
      = some none ∧
    some (none : Option Nat) ≠ some (some 0) := by
  refine ⟨rfl, rfl, by simp⟩

/-- C9 (amended): a `/send-to-user` request whose trimmed title is not 1–100
characters or whose trimmed message is not 1–300 characters is answered with a
400 `AppError` before any delivery attempt is made; a request passing
validation for an unknown or unsubscribed user is never answered 404 — it gets
200 with `{ success:false, message:'No subscriptions found' }` (no
`sent`/`total` counts) and no delivery attempt. -/
theorem C9_route_validation (deliver : PushSubscription → SendResult)
    (delFails : Nat → Bool) (userId title message : String) (store : Store) :
    ((¬(1 ≤ (jsTrim title).length ∧ (jsTrim title).length ≤ 100) ∨
      ¬(1 ≤ (jsTrim message).length ∧ (jsTrim message).length ≤ 300)) →
      (∃ msg, (sendToUserRoute deliver delFails userId title message store).response =
        .appError 400 msg) ∧
      (sendToUserRoute deliver delFails userId title message store).attempts = []) ∧
    (validateSendToUser userId title message = none →
      findActiveForUser userId store = [] →
      (sendToUserRoute deliver delFails userId title message store).response =
        .json 200 { success := false, message := some "No subscriptions found" } ∧
      (sendToUserRoute deliver delFails userId title message store).attempts = []) := by
  constructor
  · intro hbad
    rcases hv : validateSendToUser userId title message with _ | msg
    · exfalso
      unfold validateSendToUser at hv
      split_ifs at hv with h1 h2 h3
      rcases hbad with hb | hb
      · exact hb h2
      · exact hb h3
    · refine ⟨⟨msg, ?_⟩, ?_⟩ <;> simp [sendToUserRoute, hv]
  · intro hv hne
    have hout : sendToUser deliver delFails userId store =
        { result := .ok { success := false, message := some "No subscriptions found" },
          store := store, attempts := [] } := by
      rw [sendToUser]
      simp [dispatch, hne]
    constructor <;> simp [sendToUserRoute, hv, hout]

theorem C9_route_validation_witness :
    ((∃ msg, (sendToUserRoute deliverAllOk delNeverFails mongoId1 "   " "Hello" []).response =
        .appError 400 msg) ∧
      (sendToUserRoute deliverAllOk delNeverFails mongoId1 "   " "Hello" []).attempts = []) ∧
    ((sendToUserRoute deliverAllOk delNeverFails mongoId1 "Hi" "Hello" []).response =
        .json 200 { success := false, message := some "No subscriptions found" } ∧
      (sendToUserRoute deliverAllOk delNeverFails mongoId1 "Hi" "Hello" []).attempts = []) :=
  ⟨(C9_route_validation deliverAllOk delNeverFails mongoId1 "   " "Hello" []).1
      (Or.inl (by decide)),
   (C9_route_validation deliverAllOk delNeverFails mongoId1 "Hi" "Hello" []).2
      (by decide) (by decide)⟩

end BizServers
